import Mathlib

/-!
Verification of `financialDataScraper.py` (IBWebScraper).

Shallow embedding conventions:
* pandas DataFrames are `DataFrame`: a list of row labels (`index`), a list of
  column labels (`columns`) and row-major `data`.
* Python/pandas cell values are `PyVal` (exact rational numbers standing in for
  floats, strings, timestamps, `NaN` and `None`).
* float results of the valuation engine are `FVal`: a finite rational, a signed
  infinity, or `NaN`, with IEEE-style propagation through the operations the
  script actually performs (division by zero in `pct_change`, summation and
  mean in `np.mean`).
* fallible Python code (a `KeyError` from `.loc`, a `ValueError` from
  `astype(float)`, a `TypeError` inside `style_worksheet`) is `Except String`.
-/

namespace FinScraper

/-- A pandas axis label: a plain string, a `Timestamp` (only its year matters to
the script), or an integer label as produced by `reset_index(drop=True)`. -/
inductive Label where
  | str (s : String)
  | date (year : Int)
  | intIdx (n : Int)
deriving DecidableEq

/-- A cell value: a finite number (int/float idealised as an exact rational), a
string, a datetime, float `NaN`, or Python `None`. -/
inductive PyVal where
  | num (q : ℚ)
  | str (s : String)
  | date (year : Int)
  | nan
  | pynone
deriving DecidableEq

/-- A pandas `DataFrame`: row labels, column labels, row-major data. -/
structure DataFrame where
  index : List Label
  columns : List Label
  data : List (List PyVal)
deriving DecidableEq

/-- pandas `DataFrame.empty`: true when either axis has length 0. -/
def pandasEmpty (df : DataFrame) : Bool :=
  df.index.isEmpty || df.columns.isEmpty

/-- pandas `DataFrame.T`: rows and columns swapped. -/
def transposeDF (df : DataFrame) : DataFrame :=
  { index := df.columns, columns := df.index, data := df.data.transpose }

/-- `parse_financial_data` (financialDataScraper.py lines 36-68): transposes the
three statements; if any is absent (`None`) or `empty`, the whole call reports
which statement is missing and yields no statement at all. -/
def parse_financial_data (financials balance_sheet cash_flow : Option DataFrame) :
    Except String (DataFrame × DataFrame × DataFrame) :=
  match financials with
  | none => .error "No financial data to parse."
  | some f =>
    if pandasEmpty f then .error "No financial data to parse."
    else
      match balance_sheet with
      | none => .error "No balance sheet data to parse."
      | some b =>
        if pandasEmpty b then .error "No balance sheet data to parse."
        else
          match cash_flow with
          | none => .error "No cash flow data to parse."
          | some c =>
            if pandasEmpty c then .error "No cash flow data to parse."
            else .ok (transposeDF f, transposeDF b, transposeDF c)

/-- A float value: finite (exact rational idealisation), signed infinity
(`true` = positive), or `NaN`. -/
inductive FVal where
  | fin (q : ℚ)
  | inf (pos : Bool)
  | nan
deriving DecidableEq

/-- IEEE addition on `FVal` (as performed by `np.mean`'s summation). -/
def fadd : FVal → FVal → FVal
  | .nan, _ => .nan
  | .fin _, .nan => .nan
  | .inf _, .nan => .nan
  | .inf s, .inf t => if s = t then .inf s else .nan
  | .inf s, .fin _ => .inf s
  | .fin _, .inf s => .inf s
  | .fin a, .fin b => .fin (a + b)

/-- Sum of a list of floats, left to right from `0.0`. -/
def fsum (xs : List FVal) : FVal :=
  xs.foldl fadd (.fin 0)

/-- Division of a float by a positive count. -/
def fdivNat : FVal → ℕ → FVal
  | .fin q, n => .fin (q / (n : ℚ))
  | .inf s, _ => .inf s
  | .nan, _ => .nan

/-- `np.mean` on a pandas Series that contains no `NaN`: `NaN` on the empty
series, otherwise sum divided by count. -/
def npMean (xs : List FVal) : FVal :=
  if xs.isEmpty then .nan else fdivNat (fsum xs) xs.length

/-- One step of pandas `pct_change` on consecutive values `a, b`:
`(b - a) / a`, which is `NaN` when `a = 0 = b` and a signed infinity when
`a = 0 ≠ b`. -/
def pctStep (a b : ℚ) : FVal :=
  if a = 0 then
    (if b = 0 then .nan else .inf (decide (0 < b)))
  else .fin ((b - a) / a)

/-- pandas `Series.pct_change().dropna()` restricted to its leading `NaN`:
the list of changes over consecutive pairs (the position-0 `NaN` that
`pct_change` emits is not materialised since `dropna` removes it). -/
def pct_change (xs : List ℚ) : List FVal :=
  (xs.zip xs.tail).map (fun p => pctStep p.1 p.2)

/-- Is this float `NaN`? -/
def isNanF : FVal → Bool
  | .nan => true
  | _ => false

/-- pandas `dropna` on a float Series: removes `NaN` (and only `NaN`;
infinities are kept). -/
def dropnaF (xs : List FVal) : List FVal :=
  xs.filter (fun v => !isNanF v)

/-- Is this cell a pandas missing value (`NaN` or `None`)? -/
def isNA : PyVal → Bool
  | .nan => true
  | .pynone => true
  | _ => false

/-- pandas `Series.dropna` on raw cells. -/
def dropnaPy (xs : List PyVal) : List PyVal :=
  xs.filter (fun v => !isNA v)

/-- pandas `Series.astype(float)` idealised: succeeds on numeric cells,
fails otherwise. -/
def astypeFloat (xs : List PyVal) : Option (List ℚ) :=
  xs.mapM (fun v => match v with | .num q => some q | _ => none)

/-- pandas `Index.get_loc` by equality with a string label: position of the
first column named `name`. -/
def colIndexOf (cols : List Label) (name : String) : Option ℕ :=
  match cols with
  | [] => none
  | c :: rest =>
    if c = Label.str name then some 0
    else (colIndexOf rest name).map (· + 1)

/-- `df.loc[:, name]`: the column named `name`, or `none` (a `KeyError`) when
there is no such column. -/
def locCol (df : DataFrame) (name : String) : Option (List PyVal) :=
  (colIndexOf df.columns name).map (fun i => df.data.map (fun r => r.getD i PyVal.nan))

/-- `estimate_growth_rate` (financialDataScraper.py lines 71-89): default
`0.02` when the statement is `None` or fewer than 2 defined free-cash-flow
values remain; otherwise the `np.mean` of `pct_change().dropna()`. A missing
`Free Cash Flow` column is a `KeyError`; a non-numeric survivor of `dropna`
is a `ValueError` from `astype(float)`. -/
def estimate_growth_rate (cash_flow : Option DataFrame) : Except String FVal :=
  match cash_flow with
  | none => .ok (.fin 0.02)
  | some df =>
    match locCol df "Free Cash Flow" with
    | none => .error "KeyError: Free Cash Flow"
    | some col =>
      match astypeFloat (dropnaPy col) with
      | none => .error "ValueError: could not convert value to float"
      | some free_cash_flows =>
        if free_cash_flows.length < 2 then .ok (.fin 0.02)
        else .ok (npMean (dropnaF (pct_change free_cash_flows)))

/-- `calculate_dcf` (financialDataScraper.py lines 92-114): the loop discounts
`free_cash_flows[i]` by `(1+discount_rate)^(i+1)`; the terminal value uses
`free_cash_flows[-1]`, whose access on an empty list is an `IndexError`
(`none`). -/
def calculate_dcf (free_cash_flows : List ℚ) (discount_rate growth_rate : ℚ)
    (years : ℕ) : Option ℚ :=
  match free_cash_flows.getLast? with
  | none => none
  | some lastCF =>
    let dcf : ℚ := ((List.range free_cash_flows.length).map
      (fun i => free_cash_flows.getD i 0 / (1 + discount_rate) ^ (i + 1))).sum
    let terminal_value := lastCF * (1 + growth_rate) / (discount_rate - growth_rate)
    some (dcf + terminal_value / (1 + discount_rate) ^ years)

/-- The DCF formula exactly as the specification words it: the sum over
`i = 1..N` of `cash_flows[i] / (1+discount_rate)^i` (1-indexed) plus the
terminal value `cash_flows[N] * (1+growth_rate) / (discount_rate -
growth_rate)` discounted by `(1+discount_rate)^years`. -/
def dcf_spec (cash_flows : List ℚ) (discount_rate growth_rate : ℚ)
    (years : ℕ) : ℚ :=
  (∑ i in Finset.Icc 1 cash_flows.length,
      cash_flows.getD (i - 1) 0 / (1 + discount_rate) ^ i)
    + (cash_flows.getD (cash_flows.length - 1) 0 * (1 + growth_rate)
        / (discount_rate - growth_rate)) / (1 + discount_rate) ^ years

/-- The period-over-period percentage changes exactly as the specification
words them: `(v[i] - v[i-1]) / v[i-1]` for each consecutive pair. -/
def pct_changes_spec (xs : List ℚ) : List ℚ :=
  (xs.zip xs.tail).map (fun p => (p.2 - p.1) / p.1)

/-- `create_styles` (financialDataScraper.py lines 117-138): the named-style
registry of the workbook, mapping each style name to its number format. -/
def create_styles : List (String × String) :=
  [("currency", "$#,##0.00"), ("percentage", "0.00%"), ("general", "#,##0")]

/-- Resolve a named style to its number format through the registry. -/
def numberFormatOf (styleName : String) : Option String :=
  (create_styles.find? (fun p => p.1 = styleName)).map (fun p => p.2)

/-- Does the pattern match at the head of the text? -/
def matchHead : List Char → List Char → Bool
  | [], _ => true
  | _ :: _, [] => false
  | a :: pa, b :: tb => if a = b then matchHead pa tb else false

/-- Does the pattern occur anywhere in the text? -/
def hasSub (pat : List Char) : List Char → Bool
  | [] => matchHead pat []
  | b :: tb => matchHead pat (b :: tb) || hasSub pat tb

/-- Python `pat in s`: substring containment. -/
def pyInStr (pat s : String) : Bool :=
  hasSub pat.data s.data

/-- The style name `style_worksheet` picks for a numeric cell from its column
header (financialDataScraper.py lines 163-168). -/
def styleNameFor (header : String) : String :=
  if pyInStr "Revenue" header || pyInStr "Income" header then "currency"
  else if pyInStr "Margin" header || pyInStr "Rate" header then "percentage"
  else "general"

/-- Python `isinstance(v, (int, float))`; note that float `NaN` is a float. -/
def isNumericPy : PyVal → Bool
  | .num _ => true
  | .nan => true
  | _ => false

/-- The style assignment of `style_worksheet` for one cell: numeric cells get
the style selected from the row-1 header of their column; `in` applied to a
non-string header raises a `TypeError`; non-numeric cells get no style. -/
def styleCell (header cellv : PyVal) : Except String (Option String) :=
  if isNumericPy cellv then
    match header with
    | .str h => .ok (some (styleNameFor h))
    | _ => .error "TypeError: argument of type is not iterable"
  else .ok none

/-- `List.mapM` specialised to `Except`, written out so that its equations
mirror the cell loop of `style_worksheet`: stop at the first raised error. -/
def mapExcept {α β : Type} (f : α → Except String β) : List α → Except String (List β)
  | [] => .ok []
  | a :: t =>
    match f a with
    | .error e => .error e
    | .ok b =>
      match mapExcept f t with
      | .error e => .error e
      | .ok bs => .ok (b :: bs)

/-- Style assignment over one worksheet row, cell by cell against the header
row `hdr` (a column beyond the stored header row reads as `None`). -/
def styleRow (hdr row : List PyVal) : Except String (List (Option String)) :=
  mapExcept (fun c => styleCell (hdr.getD c PyVal.pynone) (row.getD c PyVal.pynone))
    (List.range row.length)

/-- The number-format effect of `style_worksheet` (financialDataScraper.py
lines 141-178) on a worksheet grid: each cell is mapped to the named style it
is assigned (or `none`). -/
def style_worksheet_fmt (grid : List (List PyVal)) :
    Except String (List (List (Option String))) :=
  mapExcept (fun row => styleRow (grid.headD []) row) grid

/-- The format rule exactly as the specification words it: numeric cells whose
header contains `Revenue` or `Income` get `$#,##0.00`; else `Margin` or `Rate`
gets `0.00%`; else `#,##0`; non-numeric cells get no numeric format. -/
def claimFormat (header cellv : PyVal) : Option String :=
  if isNumericPy cellv then
    match header with
    | .str h =>
      if pyInStr "Revenue" h || pyInStr "Income" h then some "$#,##0.00"
      else if pyInStr "Margin" h || pyInStr "Rate" h then some "0.00%"
      else some "#,##0"
    | _ => none
  else none

/-- `extract_year_from_date` (financialDataScraper.py lines 207-219): the year
of a `Timestamp`, `None` for anything else. -/
def extract_year_from_date : Label → PyVal
  | .date y => .num (y : ℚ)
  | _ => .pynone

/-- `financial_data['Year'] = financial_data.index.map(extract_year_from_date)`:
appends a `Year` column (the in-place mutation the caller of `save_to_excel`
observes on its financials DataFrame). -/
def addYearColumn (df : DataFrame) : DataFrame :=
  { index := df.index
    columns := df.columns ++ [Label.str "Year"]
    data := (df.data.zip df.index).map
      (fun p => p.1 ++ [extract_year_from_date p.2]) }

/-- pandas `reset_index(drop=True)`: the index becomes `0, 1, ...`. -/
def resetIndexDrop (df : DataFrame) : DataFrame :=
  { df with index := (List.range df.data.length).map (fun i => Label.intIdx i) }

/-- An axis label written into a worksheet cell. -/
def labelToPyVal : Label → PyVal
  | .str s => .str s
  | .date y => .date y
  | .intIdx n => .num (n : ℚ)

/-- The `Financial Data` sheet grid built by `save_to_excel` (lines 248-250)
from the mutated-and-reset DataFrame: header `['Year'] + columns[1:]`, then
per row `[row.Year] + list(row)[1:]` (`Year` is the last column, so `row.Year`
is the row's last value). -/
def save_fd_sheet (fd : DataFrame) : List (List PyVal) :=
  (PyVal.str "Year" :: (fd.columns.drop 1).map labelToPyVal)
    :: fd.data.map (fun r => r.getLastD PyVal.pynone :: r.drop 1)

/-- An openpyxl `Reference`: a cell range. -/
structure ChartRef where
  min_col : ℕ
  min_row : ℕ
  max_col : ℕ
  max_row : ℕ
deriving DecidableEq

/-- The line chart produced by `add_chart` (financialDataScraper.py lines
181-204). -/
structure Chart where
  title : String
  anchor : String
  dataRef : ChartRef
  catsRef : ChartRef
deriving DecidableEq

/-- `add_chart`: builds the line chart from the two 4-element range lists
`[min_col, min_row, max_col, max_row]` and anchors it at `E5`. -/
def add_chart (title : String) (data_range cats_range : List ℕ) : Chart :=
  { title := title
    anchor := "E5"
    dataRef := ⟨data_range.getD 0 0, data_range.getD 1 0,
                data_range.getD 2 0, data_range.getD 3 0⟩
    catsRef := ⟨cats_range.getD 0 0, cats_range.getD 1 0,
                cats_range.getD 2 0, cats_range.getD 3 0⟩ }

/-- openpyxl `dataframe_to_rows(df, index=True, header=True)`: the column
names, then the row of index names (`[None]` for an unnamed index), then each
data row prefixed by its index label. -/
def dataframe_to_rows_grid (df : DataFrame) : List (List PyVal) :=
  (df.columns.map labelToPyVal)
    :: [PyVal.pynone]
    :: ((df.index.zip df.data).map (fun p => labelToPyVal p.1 :: p.2))

/-- A float written into a worksheet cell. -/
def fvalToPy : FVal → PyVal
  | .fin q => .num q
  | _ => .nan

/-- The observable outcome of `save_to_excel` (financialDataScraper.py lines
222-291): the five sheet grids, the chart on the first sheet, and the three
DataFrame objects as the caller sees them after the call. -/
structure Workbook5 where
  financialSheet : List (List PyVal)
  financialStyles : Except String (List (List (Option String)))
  financialChart : Chart
  balanceSheetGrid : List (List PyVal)
  cashFlowGrid : List (List PyVal)
  dcfGrid : List (List PyVal)
  summaryGrid : List (List PyVal)
  finAfter : DataFrame
  balAfter : DataFrame
  cfAfter : DataFrame

/-- `save_to_excel`: mutates `financial_data` in place by appending the `Year`
column, rebinds a local copy with the index reset, emits the five sheets, and
adds the chart with ranges `[2, 1, len(fd)+1, 3]` / `[2, 2, len(fd)+1, 2]`. -/
def save_to_excel (financial_data balance_sheet cash_flow : DataFrame)
    (dcf_value : FVal) (ticker : String) : Workbook5 :=
  let fdMut := addYearColumn financial_data
  let fdLocal := resetIndexDrop fdMut
  { financialSheet := save_fd_sheet fdLocal
    financialStyles := style_worksheet_fmt (save_fd_sheet fdLocal)
    financialChart := add_chart "Revenue and Net Income"
      [2, 1, fdLocal.data.length + 1, 3] [2, 2, fdLocal.data.length + 1, 2]
    balanceSheetGrid := dataframe_to_rows_grid balance_sheet
    cashFlowGrid := dataframe_to_rows_grid cash_flow
    dcfGrid := [[.str "Metric", .str "Value"], [.str "DCF Value", fvalToPy dcf_value]]
    summaryGrid := [[.str "Ticker", .str ticker], [.str "DCF Value", fvalToPy dcf_value]]
    finAfter := fdMut
    balAfter := balance_sheet
    cfAfter := cash_flow }

/-! ## Helper lemmas -/

theorem getLast?_getD {α : Type} (d : α) :
    ∀ (l : List α) (v : α), l.getLast? = some v → l.getD (l.length - 1) d = v := by
  intro l
  induction l with
  | nil => intro v h; cases h
  | cons a t ih =>
    intro v h
    cases t with
    | nil =>
      simp [List.getLast?] at h
      simp [h, List.getD]
    | cons b u =>
      rw [List.getLast?_cons_cons] at h
      have h2 := ih v h
      simpa [List.getD, List.length_cons] using h2

theorem listRangeMapSum (f : ℕ → ℚ) :
    ∀ n : ℕ, ((List.range n).map f).sum = ∑ i in Finset.range n, f i := by
  intro n
  induction n with
  | zero => simp
  | succ m ih => rw [List.range_succ, Finset.sum_range_succ, List.map_append]; simp [ih]

/-- Claim C1 : for every non-empty `cash_flows`, every `discount_rate >
growth_rate` and every `years`, `calculate_dcf` returns the sum of the
period cash flows discounted at `(1+discount_rate)^i` for `i = 1..N` plus the
terminal value `cash_flows[N]*(1+growth_rate)/(discount_rate-growth_rate)`
discounted by `(1+discount_rate)^years`; in particular
`calculate_dcf([100], 0.10, 0.02, 5) = 100/1.10 + (100*1.02/0.08)/1.10^5`. -/
theorem calculate_dcf_matches_spec :
    (∀ (cash_flows : List ℚ) (discount_rate growth_rate : ℚ) (years : ℕ),
      cash_flows ≠ [] → growth_rate < discount_rate →
      calculate_dcf cash_flows discount_rate growth_rate years
        = some (dcf_spec cash_flows discount_rate growth_rate years)) ∧
    calculate_dcf [100] 0.10 0.02 5
      = some (100 / 1.10 + (100 * 1.02 / 0.08) / 1.10 ^ 5) := by
  have main : ∀ (cash_flows : List ℚ) (discount_rate growth_rate : ℚ) (years : ℕ),
      cash_flows ≠ [] → growth_rate < discount_rate →
      calculate_dcf cash_flows discount_rate growth_rate years
        = some (dcf_spec cash_flows discount_rate growth_rate years) := by
    intro cf dr gr years hne _hgt
    obtain ⟨lastv, hL⟩ : ∃ v, cf.getLast? = some v := by
      cases hL : cf.getLast? with
      | none => exact absurd (List.getLast?_eq_none_iff.mp hL) hne
      | some v => exact ⟨v, rfl⟩
    rw [calculate_dcf, hL]
    have hlast : cf.getD (cf.length - 1) 0 = lastv := getLast?_getD 0 cf lastv hL
    unfold dcf_spec
    rw [hlast]
    dsimp only
    congr 1
    rw [listRangeMapSum, ← Nat.Ico_succ_right, Finset.sum_Ico_eq_sum_range,
      Nat.succ_sub_one]
    congr 1
    apply Finset.sum_congr rfl
    intro i _
    rw [Nat.add_sub_cancel_left, add_comm 1 i]
  refine ⟨main, ?_⟩
  rw [main [100] 0.10 0.02 5 (by simp) (by norm_num)]
  congr 1
  simp [dcf_spec, Finset.Icc_self, Finset.sum_singleton]
  norm_num

/-- Claim C1 witness : the general theorem instantiated at `[100]`, `0.10`,
`0.02`, `5`. -/
theorem calculate_dcf_spec_instance :
    calculate_dcf [100] 0.10 0.02 5 = some (dcf_spec [100] 0.10 0.02 5) :=
  calculate_dcf_matches_spec.1 [100] 0.10 0.02 5 (by simp) (by norm_num)

/-- Claim C2 : with an absent (`None`) cash-flow statement, or a statement whose
`Free Cash Flow` column leaves fewer than 2 defined values after `dropna`,
`estimate_growth_rate` returns exactly `0.02` and does not fail. -/
theorem growth_rate_default_when_insufficient :
    estimate_growth_rate none = .ok (.fin 0.02) ∧
    ∀ (df : DataFrame) (col : List PyVal) (fcf : List ℚ),
      locCol df "Free Cash Flow" = some col →
      astypeFloat (dropnaPy col) = some fcf →
      fcf.length < 2 →
      estimate_growth_rate (some df) = .ok (.fin 0.02) := by
  refine ⟨rfl, ?_⟩
  intro df col fcf hcol hast hlen
  simp only [estimate_growth_rate, hcol, hast]
  rw [if_pos hlen]

/-- Claim C2 witness : a one-value `Free Cash Flow` column yields the default. -/
theorem growth_rate_default_instance :
    estimate_growth_rate (some ⟨[Label.date 2023], [Label.str "Free Cash Flow"],
      [[.num 100]]⟩) = .ok (.fin 0.02) :=
  growth_rate_default_when_insufficient.2
    ⟨[Label.date 2023], [Label.str "Free Cash Flow"], [[.num 100]]⟩
    [.num 100] [100] rfl rfl (by decide)

theorem colIndexOf_eq_none (name : String) :
    ∀ cols : List Label, Label.str name ∉ cols → colIndexOf cols name = none := by
  intro cols
  induction cols with
  | nil => intro _; rfl
  | cons c rest ih =>
    intro h
    have hc : ¬c = Label.str name := fun hc => h (hc ▸ List.mem_cons_self c rest)
    have hrest : Label.str name ∉ rest := fun hm => h (List.mem_cons_of_mem c hm)
    rw [colIndexOf, if_neg hc, ih hrest]
    rfl

/-- Claim C10 : a present cash-flow statement that lacks a `Free Cash Flow`
column makes `estimate_growth_rate` fail with a lookup (`KeyError`) error —
the `0.02` fallback branch does not cover a missing column. -/
theorem missing_column_raises_keyerror :
    ∀ df : DataFrame, Label.str "Free Cash Flow" ∉ df.columns →
      estimate_growth_rate (some df) = .error "KeyError: Free Cash Flow" := by
  intro df h
  simp only [estimate_growth_rate, locCol, colIndexOf_eq_none _ _ h, Option.map_none']

/-- Claim C10 witness : the empty DataFrame has no `Free Cash Flow` column. -/
theorem missing_column_instance :
    estimate_growth_rate (some ⟨[], [], []⟩) = .error "KeyError: Free Cash Flow" :=
  missing_column_raises_keyerror ⟨[], [], []⟩ (List.not_mem_nil _)

/-- Claim C9 : when at least 2 defined free-cash-flow values remain but every
`pct_change` entry is `NaN` (e.g. the series `[0, 0]`), `estimate_growth_rate`
returns `NaN`: neither the `0.02` default nor an error. -/
theorem growth_rate_nan_when_all_changes_nan :
    ∀ (df : DataFrame) (col : List PyVal) (fcf : List ℚ),
      locCol df "Free Cash Flow" = some col →
      astypeFloat (dropnaPy col) = some fcf →
      2 ≤ fcf.length →
      (∀ v ∈ pct_change fcf, v = FVal.nan) →
      estimate_growth_rate (some df) = .ok FVal.nan := by
  intro df col fcf hcol hast hlen hnan
  simp only [estimate_growth_rate, hcol, hast]
  rw [if_neg (by omega : ¬fcf.length < 2)]
  have hdrop : dropnaF (pct_change fcf) = [] := by
    unfold dropnaF
    rw [List.filter_eq_nil_iff]
    intro v hv
    rw [hnan v hv]
    decide
  rw [hdrop]
  rfl

/-- Claim C9 witness : the series `[0, 0]`. -/
theorem growth_rate_nan_instance :
    estimate_growth_rate (some ⟨[Label.date 2023, Label.date 2022],
      [Label.str "Free Cash Flow"], [[.num 0], [.num 0]]⟩) = .ok FVal.nan :=
  growth_rate_nan_when_all_changes_nan
    ⟨[Label.date 2023, Label.date 2022], [Label.str "Free Cash Flow"],
      [[.num 0], [.num 0]]⟩
    [.num 0, .num 0] [0, 0] rfl rfl (by decide) (by decide)

/-- Claim C3 counterexample : for the Free-Cash-Flow series `[0, 100, 110]` the
claim predicts the pair `(0, 100)` is dropped and the mean of the remaining
change is returned (`0.10`); the code instead keeps the `+inf` that
`pct_change` produces for that pair and returns `+inf`. -/
theorem growth_rate_zero_base_not_dropped :
    estimate_growth_rate (some ⟨[Label.date 2023, Label.date 2022, Label.date 2021],
        [Label.str "Free Cash Flow"], [[.num 0], [.num 100], [.num 110]]⟩)
      = .ok (.inf true) ∧
    estimate_growth_rate (some ⟨[Label.date 2023, Label.date 2022, Label.date 2021],
        [Label.str "Free Cash Flow"], [[.num 0], [.num 100], [.num 110]]⟩)
      ≠ .ok (.fin 0.10) := by
  have h : estimate_growth_rate (some ⟨[Label.date 2023, Label.date 2022,
      Label.date 2021], [Label.str "Free Cash Flow"],
      [[.num 0], [.num 100], [.num 110]]⟩) = .ok (.inf true) := rfl
  refine ⟨h, ?_⟩
  rw [h]
  intro hc
  exact FVal.noConfusion (Except.ok.inj hc)

theorem fsum_map_fin (l : List ℚ) : fsum (l.map FVal.fin) = FVal.fin l.sum := by
  have h : ∀ (t : List ℚ) (q : ℚ),
      (t.map FVal.fin).foldl fadd (FVal.fin q) = FVal.fin (q + t.sum) := by
    intro t
    induction t with
    | nil => intro q; simp
    | cons a u ih =>
      intro q
      simp only [List.map_cons, List.foldl_cons]
      show (u.map FVal.fin).foldl fadd (FVal.fin (q + a)) = _
      rw [ih]
      simp [add_assoc]
  simpa using h l 0

/-- Claim C3 (amended) : for every Free-Cash-Flow series with at least 2 defined
values in which no consecutive pair starts with `0`, `estimate_growth_rate`
returns the arithmetic mean of the period-over-period changes
`(v[i]-v[i-1])/v[i-1]`; in particular `[100, 110, 121]` gives `0.10`. (Pairs
with `v[i-1] = 0` are not dropped: `0,0` gives a dropped `NaN` but `0,b` with
`b ≠ 0` gives a retained infinity — see the counterexample.) -/
theorem growth_rate_mean_of_changes :
    (∀ (df : DataFrame) (col : List PyVal) (fcf : List ℚ),
      locCol df "Free Cash Flow" = some col →
      astypeFloat (dropnaPy col) = some fcf →
      2 ≤ fcf.length →
      (∀ p ∈ fcf.zip fcf.tail, p.1 ≠ 0) →
      estimate_growth_rate (some df)
        = .ok (.fin ((pct_changes_spec fcf).sum
            / ((pct_changes_spec fcf).length : ℚ)))) ∧
    estimate_growth_rate (some ⟨[Label.date 2023, Label.date 2022, Label.date 2021],
        [Label.str "Free Cash Flow"], [[.num 100], [.num 110], [.num 121]]⟩)
      = .ok (.fin 0.10) := by
  have main : ∀ (df : DataFrame) (col : List PyVal) (fcf : List ℚ),
      locCol df "Free Cash Flow" = some col →
      astypeFloat (dropnaPy col) = some fcf →
      2 ≤ fcf.length →
      (∀ p ∈ fcf.zip fcf.tail, p.1 ≠ 0) →
      estimate_growth_rate (some df)
        = .ok (.fin ((pct_changes_spec fcf).sum
            / ((pct_changes_spec fcf).length : ℚ))) := by
    intro df col fcf hcol hast hlen hnz
    simp only [estimate_growth_rate, hcol, hast]
    rw [if_neg (by omega : ¬fcf.length < 2)]
    have h1 : pct_change fcf = (pct_changes_spec fcf).map FVal.fin := by
      unfold pct_change pct_changes_spec
      rw [List.map_map]
      apply List.map_congr_left
      intro p hp
      show pctStep p.1 p.2 = FVal.fin ((p.2 - p.1) / p.1)
      rw [pctStep, if_neg (hnz p hp)]
    rw [h1]
    have h2 : dropnaF ((pct_changes_spec fcf).map FVal.fin)
        = (pct_changes_spec fcf).map FVal.fin := by
      unfold dropnaF
      rw [List.filter_eq_self]
      intro v hv
      obtain ⟨q, _, rfl⟩ := List.mem_map.mp hv
      rfl
    rw [h2]
    have hne : pct_changes_spec fcf ≠ [] := by
      have hlenz : (pct_changes_spec fcf).length = fcf.length - 1 := by
        unfold pct_changes_spec
        rw [List.length_map, List.length_zip, List.length_tail]
        omega
      intro hcontra
      rw [hcontra] at hlenz
      simp at hlenz
      omega
    cases hC : pct_changes_spec fcf with
    | nil => exact absurd hC hne
    | cons a t =>
      simp only [List.map_cons, npMean, List.isEmpty_cons, Bool.false_eq_true,
        if_false]
      rw [show FVal.fin a :: t.map FVal.fin = ((a :: t).map FVal.fin) from rfl,
        fsum_map_fin, List.length_map]
      rfl
  refine ⟨main, ?_⟩
  rw [main ⟨[Label.date 2023, Label.date 2022, Label.date 2021],
      [Label.str "Free Cash Flow"], [[.num 100], [.num 110], [.num 121]]⟩
    [.num 100, .num 110, .num 121] [100, 110, 121] rfl rfl (by decide) (by decide)]
  simp only [pct_changes_spec, List.tail_cons, List.zip_cons_cons,
    List.zip_nil_right, List.map_cons, List.map_nil, List.sum_cons,
    List.sum_nil, List.length_cons, List.length_nil]
  norm_num

/-- Claim C3 (amended) witness : the series `[100, 110, 121]` through the general
mean statement. -/
theorem growth_rate_mean_instance :
    estimate_growth_rate (some ⟨[Label.date 2023, Label.date 2022, Label.date 2021],
        [Label.str "Free Cash Flow"], [[.num 100], [.num 110], [.num 121]]⟩)
      = .ok (.fin ((pct_changes_spec [100, 110, 121]).sum
          / ((pct_changes_spec [100, 110, 121]).length : ℚ))) :=
  growth_rate_mean_of_changes.1
    ⟨[Label.date 2023, Label.date 2022, Label.date 2021],
      [Label.str "Free Cash Flow"], [[.num 100], [.num 110], [.num 121]]⟩
    [.num 100, .num 110, .num 121] [100, 110, 121] rfl rfl (by decide) (by decide)

/-- Claim C4 : if any of the three raw datasets is absent or has zero rows, the
normalize step fails, reporting a missing statement, and returns no normalized
statement at all (never a partial result); in particular a present, non-empty
financials with an empty balance sheet fails naming the balance sheet. -/
theorem parse_rejects_missing_statement :
    (∀ f b c : Option DataFrame,
      ((f = none ∨ ∃ df, f = some df ∧ df.index = []) ∨
       (b = none ∨ ∃ df, b = some df ∧ df.index = []) ∨
       (c = none ∨ ∃ df, c = some df ∧ df.index = [])) →
      ∀ r, parse_financial_data f b c ≠ .ok r) ∧
    (∀ (fd : DataFrame) (c : Option DataFrame) (bd : DataFrame),
      pandasEmpty fd = false → bd.index = [] →
      parse_financial_data (some fd) (some bd) c
        = .error "No balance sheet data to parse.") := by
  have hempty : ∀ x : DataFrame, x.index = [] → pandasEmpty x = true := by
    intro x hx
    simp [pandasEmpty, hx]
  constructor
  · intro f b c hmiss r hok
    cases f with
    | none => simp [parse_financial_data] at hok
    | some fd =>
      by_cases hf : pandasEmpty fd
      · simp [parse_financial_data, hf] at hok
      · cases b with
        | none => simp [parse_financial_data, hf] at hok
        | some bd =>
          by_cases hb : pandasEmpty bd
          · simp [parse_financial_data, hf, hb] at hok
          · cases c with
            | none => simp [parse_financial_data, hf, hb] at hok
            | some cd =>
              by_cases hc : pandasEmpty cd
              · simp [parse_financial_data, hf, hb, hc] at hok
              · rcases hmiss with (hm | ⟨df, hdf, hidx⟩) | (hm | ⟨df, hdf, hidx⟩) |
                  (hm | ⟨df, hdf, hidx⟩)
                · exact Option.noConfusion hm
                · injection hdf with h2
                  subst h2
                  exact hf (hempty _ hidx)
                · exact Option.noConfusion hm
                · injection hdf with h2
                  subst h2
                  exact hb (hempty _ hidx)
                · exact Option.noConfusion hm
                · injection hdf with h2
                  subst h2
                  exact hc (hempty _ hidx)
  · intro fd c bd hfd hbd
    simp [parse_financial_data, hfd, hempty bd hbd]

/-- Claim C4 witness : a valid financials, an empty balance sheet, a valid cash
flow. -/
theorem parse_rejects_missing_instance :
    parse_financial_data
      (some ⟨[Label.str "Total Revenue"], [Label.date 2023], [[.num 1]]⟩)
      (some ⟨[], [Label.date 2023], []⟩)
      (some ⟨[Label.str "Free Cash Flow"], [Label.date 2023], [[.num 1]]⟩)
      = .error "No balance sheet data to parse." :=
  parse_rejects_missing_statement.2
    ⟨[Label.str "Total Revenue"], [Label.date 2023], [[.num 1]]⟩
    (some ⟨[Label.str "Free Cash Flow"], [Label.date 2023], [[.num 1]]⟩)
    ⟨[], [Label.date 2023], []⟩ rfl rfl

/-- Claim C7 counterexample : after `save_to_excel`, the caller's financials
DataFrame is no longer the statement the Normalizer produced — the renderer
has mutated it in place. -/
theorem renderer_mutates_financials :
    (save_to_excel ⟨[Label.date 2023], [Label.str "Total Revenue"], [[.num 5]]⟩
        ⟨[], [], []⟩ ⟨[], [], []⟩ (FVal.fin 1) "AAPL").finAfter
      ≠ ⟨[Label.date 2023], [Label.str "Total Revenue"], [[.num 5]]⟩ := by
  intro h
  have h2 := congrArg (fun d => d.columns.length) h
  simp [save_to_excel, addYearColumn] at h2

/-- Claim C7 (amended) : the renderer leaves the balance-sheet and cash-flow
statements unchanged, but mutates the financials statement in place by
appending a `Year` column; the financials' index and its original columns and
row values are otherwise unchanged. -/
theorem renderer_mutation_is_year_append :
    ∀ (financial_data balance_sheet cash_flow : DataFrame) (v : FVal) (t : String),
      financial_data.data.length = financial_data.index.length →
      (save_to_excel financial_data balance_sheet cash_flow v t).balAfter
          = balance_sheet ∧
      (save_to_excel financial_data balance_sheet cash_flow v t).cfAfter
          = cash_flow ∧
      (save_to_excel financial_data balance_sheet cash_flow v t).finAfter.index
          = financial_data.index ∧
      (save_to_excel financial_data balance_sheet cash_flow v t).finAfter.columns
          = financial_data.columns ++ [Label.str "Year"] ∧
      (save_to_excel financial_data balance_sheet cash_flow v t).finAfter.data.map
          List.dropLast = financial_data.data := by
  intro fd bal cf v t hlen
  refine ⟨rfl, rfl, rfl, rfl, ?_⟩
  show ((fd.data.zip fd.index).map
      (fun p => p.1 ++ [extract_year_from_date p.2])).map List.dropLast = fd.data
  rw [List.map_map]
  have hpt : ∀ p ∈ fd.data.zip fd.index,
      (List.dropLast ∘ fun p => p.1 ++ [extract_year_from_date p.2]) p
        = Prod.fst p := by
    intro p _
    simp
  rw [List.map_congr_left hpt]
  exact List.map_fst_zip _ _ (le_of_eq hlen)

/-- Claim C7 (amended) witness : a concrete one-row financials statement. -/
theorem renderer_mutation_instance :
    (save_to_excel ⟨[Label.date 2023], [Label.str "Total Revenue"], [[.num 5]]⟩
        ⟨[], [], []⟩ ⟨[], [], []⟩ (FVal.fin 1) "AAPL").balAfter = ⟨[], [], []⟩ ∧
    (save_to_excel ⟨[Label.date 2023], [Label.str "Total Revenue"], [[.num 5]]⟩
        ⟨[], [], []⟩ ⟨[], [], []⟩ (FVal.fin 1) "AAPL").cfAfter = ⟨[], [], []⟩ ∧
    (save_to_excel ⟨[Label.date 2023], [Label.str "Total Revenue"], [[.num 5]]⟩
        ⟨[], [], []⟩ ⟨[], [], []⟩ (FVal.fin 1) "AAPL").finAfter.index
        = [Label.date 2023] ∧
    (save_to_excel ⟨[Label.date 2023], [Label.str "Total Revenue"], [[.num 5]]⟩
        ⟨[], [], []⟩ ⟨[], [], []⟩ (FVal.fin 1) "AAPL").finAfter.columns
        = [Label.str "Total Revenue"] ++ [Label.str "Year"] ∧
    (save_to_excel ⟨[Label.date 2023], [Label.str "Total Revenue"], [[.num 5]]⟩
        ⟨[], [], []⟩ ⟨[], [], []⟩ (FVal.fin 1) "AAPL").finAfter.data.map
        List.dropLast = [[.num 5]] :=
  renderer_mutation_is_year_append
    ⟨[Label.date 2023], [Label.str "Total Revenue"], [[.num 5]]⟩
    ⟨[], [], []⟩ ⟨[], [], []⟩ (FVal.fin 1) "AAPL" rfl

/-- Claim C5 (code bug) : for a financials statement with line-item columns
`Total Revenue` and `Net Income`, the rendered financial-data sheet has header
row `[Year, Net Income, Year]` and data rows `[year, net-income, year]`: the
first line-item column (`Total Revenue`) is dropped and the `Year` column is
emitted twice, contradicting the claim that only the period index is replaced
and no line-item column is dropped or duplicated. -/
theorem fd_sheet_drops_first_line_item :
    (save_to_excel ⟨[Label.date 2023, Label.date 2022],
        [Label.str "Total Revenue", Label.str "Net Income"],
        [[.num 500, .num 100], [.num 400, .num 80]]⟩
      ⟨[], [], []⟩ ⟨[], [], []⟩ (FVal.fin 1) "AAPL").financialSheet
      = [[.str "Year", .str "Net Income", .str "Year"],
         [.num 2023, .num 100, .num 2023],
         [.num 2022, .num 80, .num 2022]] ∧
    PyVal.str "Total Revenue" ∉
      ((save_to_excel ⟨[Label.date 2023, Label.date 2022],
          [Label.str "Total Revenue", Label.str "Net Income"],
          [[.num 500, .num 100], [.num 400, .num 80]]⟩
        ⟨[], [], []⟩ ⟨[], [], []⟩ (FVal.fin 1) "AAPL").financialSheet.headD []) := by
  refine ⟨rfl, ?_⟩
  decide

/-- Claim C8 (code bug) : for a 3-row financial-data sheet, exactly one chart
titled `Revenue and Net Income` is produced, but its data reference is columns
2..4 over rows 1..3 and its category reference is columns 2..4 on row 2 — not
the second and third columns over all data rows against the first (years)
column. -/
theorem chart_ranges_transposed :
    (save_to_excel ⟨[Label.date 2023, Label.date 2022, Label.date 2021],
        [Label.str "Total Revenue", Label.str "Net Income"],
        [[.num 5, .num 1], [.num 4, .num 1], [.num 3, .num 1]]⟩
      ⟨[], [], []⟩ ⟨[], [], []⟩ (FVal.fin 1) "AAPL").financialChart
      = ⟨"Revenue and Net Income", "E5", ⟨2, 1, 4, 3⟩, ⟨2, 2, 4, 2⟩⟩ ∧
    (save_to_excel ⟨[Label.date 2023, Label.date 2022, Label.date 2021],
        [Label.str "Total Revenue", Label.str "Net Income"],
        [[.num 5, .num 1], [.num 4, .num 1], [.num 3, .num 1]]⟩
      ⟨[], [], []⟩ ⟨[], [], []⟩ (FVal.fin 1) "AAPL").financialChart.catsRef.min_col
      ≠ 1 ∧
    (save_to_excel ⟨[Label.date 2023, Label.date 2022, Label.date 2021],
        [Label.str "Total Revenue", Label.str "Net Income"],
        [[.num 5, .num 1], [.num 4, .num 1], [.num 3, .num 1]]⟩
      ⟨[], [], []⟩ ⟨[], [], []⟩ (FVal.fin 1) "AAPL").financialChart.dataRef.max_col
      ≠ 3 := by
  exact ⟨rfl, by decide, by decide⟩

theorem mapExcept_ok_spec {α β : Type} (f : α → Except String β) :
    ∀ (l : List α) (out : List β), mapExcept f l = .ok out →
      out.length = l.length ∧
      ∀ (i : ℕ) (da : α) (db : β), i < l.length →
        f (l.getD i da) = .ok (out.getD i db) := by
  intro l
  induction l with
  | nil =>
    intro out h
    rw [mapExcept] at h
    injection h with h2
    subst h2
    exact ⟨rfl, fun i da db hi => absurd hi (by simp)⟩
  | cons a t ih =>
    intro out h
    rw [mapExcept] at h
    cases hfa : f a with
    | error e =>
      simp only [hfa] at h
      exact Except.noConfusion h
    | ok b =>
      simp only [hfa] at h
      cases hmt : mapExcept f t with
      | error e =>
        simp only [hmt] at h
        exact Except.noConfusion h
      | ok bs =>
        simp only [hmt] at h
        injection h with h2
        subst h2
        obtain ⟨ihlen, ihpt⟩ := ih bs hmt
        refine ⟨by simp [ihlen], ?_⟩
        intro i da db hi
        cases i with
        | zero => simpa using hfa
        | succ j =>
          have hj : j < t.length := by simpa using hi
          simpa using ihpt j da db hj

theorem rangeGetD (n i d : ℕ) (h : i < n) : (List.range n).getD i d = i := by
  rw [List.getD_eq_getElem?_getD, List.getElem?_range h]
  rfl

theorem styleCell_resolves (hv v : PyVal) (r : Option String) :
    styleCell hv v = .ok r → r.bind numberFormatOf = claimFormat hv v := by
  intro h
  unfold styleCell at h
  by_cases hn : isNumericPy v
  · rw [if_pos hn] at h
    cases hv with
    | str s =>
      injection h with h2
      subst h2
      show numberFormatOf (styleNameFor s) = claimFormat (.str s) v
      unfold styleNameFor claimFormat
      rw [if_pos hn]
      dsimp only
      split_ifs with h1 h2
      · rfl
      · rfl
      · rfl
    | num q => exact Except.noConfusion h
    | date y => exact Except.noConfusion h
    | nan => exact Except.noConfusion h
    | pynone => exact Except.noConfusion h
  · rw [if_neg hn] at h
    injection h with h2
    subst h2
    unfold claimFormat
    rw [if_neg hn]
    rfl

/-- Claim C6 : whenever `style_worksheet` succeeds on a worksheet grid, every
numeric cell is assigned the number format chosen from its column's row-1
header by substring match in priority order — `Revenue`/`Income` giving
`$#,##0.00`, else `Margin`/`Rate` giving `0.00%`, else `#,##0` — and every
non-numeric cell is assigned no numeric format. -/
theorem numeric_format_by_header :
    ∀ (grid : List (List PyVal)) (styled : List (List (Option String))) (r c : ℕ),
      style_worksheet_fmt grid = .ok styled →
      r < grid.length → c < (grid.getD r []).length →
      ((styled.getD r []).getD c none).bind numberFormatOf
        = claimFormat ((grid.headD []).getD c PyVal.pynone)
            ((grid.getD r []).getD c PyVal.pynone) := by
  intro grid styled r c hok hr hc
  rw [style_worksheet_fmt] at hok
  obtain ⟨_, hrows⟩ := mapExcept_ok_spec _ grid styled hok
  have hrow := hrows r [] [] hr
  rw [styleRow] at hrow
  obtain ⟨_, hcells⟩ :=
    mapExcept_ok_spec _ (List.range (grid.getD r []).length) (styled.getD r []) hrow
  have hcell := hcells c 0 none (by simpa using hc)
  rw [rangeGetD _ _ _ hc] at hcell
  exact styleCell_resolves _ _ _ hcell

/-- Claim C6 witness : a sheet whose columns are headed `Total Revenue`,
`Operating Margin` and `Shares Outstanding`, checked at the numeric cell under
`Operating Margin`. -/
theorem numeric_format_instance :
    ((([[(none : Option String), none, none], [some "currency", some "percentage",
          some "general"]].getD 1 []).getD 1 none)).bind numberFormatOf
      = claimFormat (([[PyVal.str "Total Revenue", PyVal.str "Operating Margin",
            PyVal.str "Shares Outstanding"],
          [PyVal.num 5, PyVal.num 7, PyVal.num 3]].headD []).getD 1 PyVal.pynone)
          (([[PyVal.str "Total Revenue", PyVal.str "Operating Margin",
            PyVal.str "Shares Outstanding"],
          [PyVal.num 5, PyVal.num 7, PyVal.num 3]].getD 1 []).getD 1 PyVal.pynone) :=
  numeric_format_by_header
    [[PyVal.str "Total Revenue", PyVal.str "Operating Margin",
        PyVal.str "Shares Outstanding"],
      [PyVal.num 5, PyVal.num 7, PyVal.num 3]]
    [[(none : Option String), none, none],
      [some "currency", some "percentage", some "general"]]
    1 1 rfl (by decide) (by decide)

end FinScraper
